import Mathlib

/-!
Shallow embedding of the drone-mission conflict-detection core
(`src/models/mission.py` and `src/conflict/conflict_detector.py`).

Conventions of the embedding:
* Python floats are modelled as rationals (`ℚ`); every arithmetic
  operation of the source maps to the corresponding exact operation.
* `datetime` values are modelled as rationals (seconds); `datetime`
  comparison and `timedelta` arithmetic map to `ℚ` comparison and
  arithmetic.
* Optional Python attributes (`z`, `timestamp`) are `Option ℚ`.
* Python exceptions (`ValueError` from the validators, `TypeError` from
  comparing `None` timestamps) are modelled with `Except String`.
* `np.sqrt` values are represented by their squares wherever only the
  order of distances matters: for nonnegative reals `d` and a bound `b`,
  `Real.sqrt d < b ↔ 0 < b ∧ d < b ^ 2`, so the strict safety test
  `distance < safety_buffer` of the source is embedded as
  `sqrtLtBuffer distSq buffer`.  The `distance` field of a `Conflict`
  is correspondingly stored squared (`distanceSq`).  In the one place
  where a quotient of two square roots feeds further arithmetic
  (`_calculate_conflict_time`), the quotient is a rational number on
  every reachable input and is computed exactly by `ratSqrt`.
* The `description` field of the Python `Conflict` dataclass is a pure
  formatting of the other fields and carries no additional data; it is
  not modelled.
-/

/-- Waypoint dataclass of `models/mission.py`: planar coordinates, an
optional altitude and an optional timestamp (seconds, as a rational). -/
structure Waypoint where
  x : ℚ
  y : ℚ
  z : Option ℚ := none
  timestamp : Option ℚ := none
  deriving DecidableEq, Repr

/-- Embeds `Waypoint.__post_init__`: construction fails with a
`ValueError` when `x < 0`, `y < 0`, or `z` is present and negative. -/
def mkWaypoint (x y : ℚ) (z ts : Option ℚ) : Except String Waypoint :=
  if x < 0 ∨ y < 0 then .error "Coordinates cannot be negative"
  else if (match z with | some v => decide (v < 0) | none => false) then
    .error "Altitude cannot be negative"
  else .ok { x := x, y := y, z := z, timestamp := ts }

/-- Mission dataclass of `models/mission.py`. -/
structure Mission where
  waypoints : List Waypoint
  start_time : ℚ
  end_time : ℚ
  drone_id : String
  deriving DecidableEq, Repr

/-- Sort key used by `self.waypoints.sort(key=lambda wp: wp.timestamp)`;
the `getD 0` default is never exercised because the source only sorts
when every waypoint carries a timestamp. -/
def tsKey (w : Waypoint) : ℚ := w.timestamp.getD 0

/-- Comparison relation of the timestamp sort. -/
def wpLe (a b : Waypoint) : Prop := tsKey a ≤ tsKey b

instance : DecidableRel wpLe := fun a b =>
  inferInstanceAs (Decidable (tsKey a ≤ tsKey b))

instance : IsTotal Waypoint wpLe := ⟨fun a b => le_total (tsKey a) (tsKey b)⟩

instance : IsTrans Waypoint wpLe := ⟨fun _ _ _ h h2 => le_trans h h2⟩

/-- Embeds `Mission.__post_init__`: fail on an empty waypoint list, fail
when `end_time <= start_time`, stably sort the waypoints by timestamp
when all of them carry one (Python `list.sort` is stable, as is
`List.insertionSort`), and fail when some timestamped waypoint lies
outside `[start_time, end_time]`. -/
def mkMission (ws : List Waypoint) (st et : ℚ) (id : String) :
    Except String Mission :=
  if ws.isEmpty then .error "Mission must have at least one waypoint"
  else if et ≤ st then .error "End time must be after start time"
  else
    let ws2 := if ws.all (fun w => w.timestamp.isSome) then
                 List.insertionSort wpLe ws
               else ws
    if ws2.all (fun w => match w.timestamp with
        | some t => decide (st ≤ t) && decide (t ≤ et)
        | none => true) then
      .ok { waypoints := ws2, start_time := st, end_time := et, drone_id := id }
    else .error "Waypoint timestamp must be within mission time window"

/-- Conflict record of `conflict_detector.py`; `distanceSq` stores the
square of the `distance` field of the source (see the header comment),
and the derived `description` string is omitted. -/
structure Conflict where
  location : ℚ × ℚ
  time : ℚ
  primary_drone : String
  conflicting_drone : String
  distanceSq : ℚ
  deriving DecidableEq, Repr

/-- Embeds `ConflictDetector._check_temporal_overlap`, which evaluates
`not (wp1_end.timestamp < wp2_start.timestamp or
wp2_end.timestamp < wp1_start.timestamp)`.  Python evaluates the first
comparison first and short-circuits `or`; comparing `None` with `<`
raises a `TypeError`, which the embedding surfaces as an error. -/
def checkTemporalOverlap (a0 a1 b0 b1 : Waypoint) : Except String Bool :=
  match a1.timestamp, b0.timestamp with
  | some t1, some t2 =>
    if t1 < t2 then .ok false
    else
      match b1.timestamp, a0.timestamp with
      | some u1, some u2 => .ok (!decide (u1 < u2))
      | _, _ => .error "TypeError: cannot compare None timestamp"
  | _, _ => .error "TypeError: cannot compare None timestamp"

/-- Denominator of the parametric two-line intersection in
`ConflictDetector._find_intersection`. -/
def denom (a0 a1 b0 b1 : Waypoint) : ℚ :=
  (a0.x - a1.x) * (b0.y - b1.y) - (a0.y - a1.y) * (b0.x - b1.x)

/-- Embeds `ConflictDetector._find_intersection`: `None` when the
denominator is exactly zero (parallel or collinear segments), otherwise
the intersection point when both parameters lie in `[0, 1]`. -/
def findIntersection (a0 a1 b0 b1 : Waypoint) : Option (ℚ × ℚ) :=
  let d := denom a0 a1 b0 b1
  if d = 0 then none
  else
    let t := ((a0.x - b0.x) * (b0.y - b1.y) - (a0.y - b0.y) * (b0.x - b1.x)) / d
    let u := -((a0.x - a1.x) * (a0.y - b0.y) - (a0.y - a1.y) * (a0.x - b0.x)) / d
    if 0 ≤ t ∧ t ≤ 1 ∧ 0 ≤ u ∧ u ≤ 1 then
      some (a0.x + t * (a1.x - a0.x), a0.y + t * (a1.y - a0.y))
    else none

/-- Exact rational square root: on an input that is the square of a
rational in lowest terms it returns that rational; it embeds `np.sqrt`
at the single call site where the source divides two square roots,
because there the quotient is always such a perfect square. -/
def ratSqrt (q : ℚ) : ℚ := (Nat.sqrt q.num.toNat : ℚ) / (Nat.sqrt q.den : ℚ)

/-- Square of `total_dist1` in `ConflictDetector._calculate_conflict_time`;
`total_dist1 > 0` in the source is equivalent to `0 < totalDistSq`. -/
def totalDistSq (a0 a1 : Waypoint) : ℚ :=
  (a1.x - a0.x) ^ 2 + (a1.y - a0.y) ^ 2

/-- Embeds `ConflictDetector._calculate_conflict_time`.  The source
computes `time_ratio1 = sqrt(distSq) / sqrt(totalSq)` (0 when the
segment length is 0) and interpolates the primary segment timestamps;
subtracting a `None` timestamp would raise a `TypeError`.  The quotient
of square roots equals `ratSqrt (distSq / totalSq)`. -/
def calcConflictTime (a0 a1 _b0 _b1 : Waypoint) (inter : ℚ × ℚ) :
    Except String ℚ :=
  let totalSq := totalDistSq a0 a1
  let distSq := (inter.1 - a0.x) ^ 2 + (inter.2 - a0.y) ^ 2
  let frac := if 0 < totalSq then ratSqrt (distSq / totalSq) else 0
  match a1.timestamp, a0.timestamp with
  | some te, some ts => .ok (ts + frac * (te - ts))
  | _, _ => .error "TypeError: cannot subtract None timestamp"

/-- Square of `ConflictDetector._calculate_distance`, which returns the
Euclidean distance between the two waypoints and ignores its `point`
argument. -/
def calcDistanceSq (w1 w2 : Waypoint) (_point : ℚ × ℚ) : ℚ :=
  (w1.x - w2.x) ^ 2 + (w1.y - w2.y) ^ 2

/-- Embeds the source test `distance < self.safety_buffer` where
`distance = sqrt distSq`: for real numbers, `Real.sqrt d < b` holds
exactly when `0 < b` and `d < b ^ 2`. -/
def sqrtLtBuffer (distSq buffer : ℚ) : Bool :=
  decide (0 < buffer) && decide (distSq < buffer ^ 2)

/-- Body of the inner loop of `ConflictDetector._check_mission_pair` for
one pair of segments: temporal overlap, then intersection, then conflict
time (a `datetime` is always truthy, so the check `if conflict_time:`
always passes once `_calculate_conflict_time` returns), then the strict
safety-distance test. -/
def checkSegPair (buffer : ℚ) (d1 d2 : String) (a0 a1 b0 b1 : Waypoint) :
    Except String (List Conflict) :=
  match checkTemporalOverlap a0 a1 b0 b1 with
  | .error e => .error e
  | .ok false => .ok []
  | .ok true =>
    match findIntersection a0 a1 b0 b1 with
    | none => .ok []
    | some cp =>
      match calcConflictTime a0 a1 b0 b1 cp with
      | .error e => .error e
      | .ok ct =>
        let dSq := calcDistanceSq a0 b0 cp
        if sqrtLtBuffer dSq buffer then
          .ok [{ location := cp, time := ct, primary_drone := d1,
                 conflicting_drone := d2, distanceSq := dSq }]
        else .ok []

/-- Consecutive-waypoint segments `(waypoints[i], waypoints[i+1])`, the
pairs enumerated by the `range(len(...) - 1)` loops of
`_check_mission_pair`. -/
def segments : List Waypoint → List (Waypoint × Waypoint)
  | a :: b :: rest => (a, b) :: segments (b :: rest)
  | _ => []

/-- Inner loop of `_check_mission_pair`: one primary segment against
every segment of the other mission, in order; the first exception
aborts, as in Python. -/
def collectInner (buffer : ℚ) (d1 d2 : String) (a : Waypoint × Waypoint) :
    List (Waypoint × Waypoint) → Except String (List Conflict)
  | [] => .ok []
  | b :: rest =>
    match checkSegPair buffer d1 d2 a.1 a.2 b.1 b.2 with
    | .error e => .error e
    | .ok cs =>
      match collectInner buffer d1 d2 a rest with
      | .error e => .error e
      | .ok css => .ok (cs ++ css)

/-- Outer loop of `_check_mission_pair` over the primary segments. -/
def collectOuter (buffer : ℚ) (d1 d2 : String)
    (s2 : List (Waypoint × Waypoint)) :
    List (Waypoint × Waypoint) → Except String (List Conflict)
  | [] => .ok []
  | a :: rest =>
    match collectInner buffer d1 d2 a s2 with
    | .error e => .error e
    | .ok cs =>
      match collectOuter buffer d1 d2 s2 rest with
      | .error e => .error e
      | .ok css => .ok (cs ++ css)

/-- Embeds `ConflictDetector._check_mission_pair`. -/
def checkMissionPair (buffer : ℚ) (m1 m2 : Mission) :
    Except String (List Conflict) :=
  collectOuter buffer m1.drone_id m2.drone_id (segments m2.waypoints)
    (segments m1.waypoints)

/-- Loop of `ConflictDetector.check_mission` over the other missions,
extending the conflict list in supplied order. -/
def checkMissionList (buffer : ℚ) (primary : Mission) :
    List Mission → Except String (List Conflict)
  | [] => .ok []
  | m :: rest =>
    match checkMissionPair buffer primary m with
    | .error e => .error e
    | .ok cs =>
      match checkMissionList buffer primary rest with
      | .error e => .error e
      | .ok css => .ok (cs ++ css)

/-- Embeds `ConflictDetector.check_mission`: aggregate the pairwise
conflicts and return `("clear", [])` when none were found, otherwise
`("conflict detected", conflicts)`. -/
def check_mission (buffer : ℚ) (primary : Mission) (others : List Mission) :
    Except String (String × List Conflict) :=
  match checkMissionList buffer primary others with
  | .error e => .error e
  | .ok conflicts =>
    if conflicts.isEmpty then .ok ("clear", [])
    else .ok ("conflict detected", conflicts)

instance {ε α : Type} [DecidableEq ε] [DecidableEq α] : DecidableEq (Except ε α) :=
  fun a b =>
    match a, b with
    | .ok x, .ok y => if h : x = y then .isTrue (by rw [h]) else .isFalse (by simp [h])
    | .error x, .error y => if h : x = y then .isTrue (by rw [h]) else .isFalse (by simp [h])
    | .ok _, .error _ => .isFalse (by simp)
    | .error _, .ok _ => .isFalse (by simp)

/-- Head-on scenario of the spec, first waypoint of the primary drone:
(0, 100) at 10:00:00, i.e. 36000 seconds. -/
def wpH1 : Waypoint := { x := 0, y := 100, timestamp := some 36000 }

/-- Head-on scenario, second waypoint of the primary drone: (200, 100)
at 10:10:00. -/
def wpH2 : Waypoint := { x := 200, y := 100, timestamp := some 36600 }

/-- Head-on scenario, first waypoint of the other drone: (200, 100) at
10:00:00. -/
def wpH3 : Waypoint := { x := 200, y := 100, timestamp := some 36000 }

/-- Head-on scenario, second waypoint of the other drone: (0, 100) at
10:10:00. -/
def wpH4 : Waypoint := { x := 0, y := 100, timestamp := some 36600 }

/-- Head-on scenario, primary mission. -/
def headOnPrimary : Mission :=
  { waypoints := [wpH1, wpH2], start_time := 36000, end_time := 36600, drone_id := "Primary" }

/-- Head-on scenario, other mission. -/
def headOnOther : Mission :=
  { waypoints := [wpH3, wpH4], start_time := 36000, end_time := 36600, drone_id := "Drone2" }

/-- Parallel scenario of the spec, first waypoint of the primary drone:
(0, 0) at 10:00:00. -/
def wpP1 : Waypoint := { x := 0, y := 0, timestamp := some 36000 }

/-- Parallel scenario, second waypoint of the primary drone: (200, 0) at
10:10:00. -/
def wpP2 : Waypoint := { x := 200, y := 0, timestamp := some 36600 }

/-- Parallel scenario, first waypoint of the other drone: (0, 100) at
10:00:00. -/
def wpP3 : Waypoint := { x := 0, y := 100, timestamp := some 36000 }

/-- Parallel scenario, second waypoint of the other drone: (200, 100) at
10:10:00. -/
def wpP4 : Waypoint := { x := 200, y := 100, timestamp := some 36600 }

/-- Parallel scenario, primary mission. -/
def parPrimary : Mission :=
  { waypoints := [wpP1, wpP2], start_time := 36000, end_time := 36600, drone_id := "P1" }

/-- Parallel scenario, other mission. -/
def parOther : Mission :=
  { waypoints := [wpP3, wpP4], start_time := 36000, end_time := 36600, drone_id := "P2" }

/-- Waypoint (0, 0) with no timestamp. -/
def wpN1 : Waypoint := { x := 0, y := 0 }

/-- Waypoint (100, 0) with no timestamp. -/
def wpN2 : Waypoint := { x := 100, y := 0 }

/-- Waypoint (0, 50) with no timestamp. -/
def wpN3 : Waypoint := { x := 0, y := 50 }

/-- Waypoint (100, 50) with no timestamp. -/
def wpN4 : Waypoint := { x := 100, y := 50 }

/-- A well-formed mission whose waypoints carry no timestamps. -/
def noTsPrimary : Mission :=
  { waypoints := [wpN1, wpN2], start_time := 0, end_time := 600, drone_id := "A" }

/-- A second well-formed mission whose waypoints carry no timestamps. -/
def noTsOther : Mission :=
  { waypoints := [wpN3, wpN4], start_time := 0, end_time := 600, drone_id := "B" }

/-- Crossing scenario, first waypoint of the primary drone: (0, 0) at
second 0. -/
def wpC1 : Waypoint := { x := 0, y := 0, timestamp := some 0 }

/-- Crossing scenario, second waypoint of the primary drone: (100, 100)
at second 600. -/
def wpC2 : Waypoint := { x := 100, y := 100, timestamp := some 600 }

/-- Crossing scenario, first waypoint of the other drone: (0, 100) at
second 0. -/
def wpC3 : Waypoint := { x := 0, y := 100, timestamp := some 0 }

/-- Crossing scenario, second waypoint of the other drone: (100, 0) at
second 600. -/
def wpC4 : Waypoint := { x := 100, y := 0, timestamp := some 600 }

/-- Crossing scenario, primary mission: diagonal (0,0) → (100,100). -/
def crossPrimary : Mission :=
  { waypoints := [wpC1, wpC2], start_time := 0, end_time := 600, drone_id := "P" }

/-- Crossing scenario, other mission: diagonal (0,100) → (100,0); the
paths intersect at (50, 50) and the start points are 100 apart. -/
def crossOther : Mission :=
  { waypoints := [wpC3, wpC4], start_time := 0, end_time := 600, drone_id := "Q" }

/-- A mission with exactly one waypoint. -/
def singleWpMission : Mission :=
  { waypoints := [wpC1], start_time := 0, end_time := 600, drone_id := "S" }

/-- Every waypoint of the mission carries a timestamp: the hypothesis
under which the detector can never raise. -/
def allTimestamped (m : Mission) : Prop :=
  ∀ w ∈ m.waypoints, w.timestamp.isSome = true

instance (m : Mission) : Decidable (allTimestamped m) :=
  inferInstanceAs (Decidable (∀ w ∈ m.waypoints, w.timestamp.isSome = true))

/-- Touching-intervals scenario: segment A runs from second 0 to second
100, segment B from second 100 to second 200; the intervals share the
single instant 100. -/
def wpT0 : Waypoint := { x := 0, y := 0, timestamp := some 0 }

/-- Touching-intervals scenario, end of segment A at second 100. -/
def wpT1 : Waypoint := { x := 10, y := 0, timestamp := some 100 }

/-- Touching-intervals scenario, start of segment B at second 100. -/
def wpT2 : Waypoint := { x := 0, y := 5, timestamp := some 100 }

/-- Touching-intervals scenario, end of segment B at second 200. -/
def wpT3 : Waypoint := { x := 10, y := 5, timestamp := some 200 }

/-- A waypoint with timestamp 200, listed first in the unsorted
construction example. -/
def wpS1 : Waypoint := { x := 1, y := 1, timestamp := some 200 }

/-- A waypoint with timestamp 100, listed second in the unsorted
construction example. -/
def wpS2 : Waypoint := { x := 2, y := 2, timestamp := some 100 }

/-- A degenerate segment endpoint: both ends of the segment sit at
(5, 5). -/
def wpD0 : Waypoint := { x := 5, y := 5, timestamp := some 0 }

/-- Second endpoint of the degenerate segment, same position at a later
time. -/
def wpD1 : Waypoint := { x := 5, y := 5, timestamp := some 600 }

/-- C1, counterexample.  The claim asserts that the head-on scenario
(primary (0,100)@10:00 → (200,100)@10:10 against (200,100)@10:00 →
(0,100)@10:10 with safety buffer 50) yields exactly one conflict near
(100,100) at about 10:05 with distance 0.  On the code it does not: the
two segments lie on the same line `y = 100`, so the intersection
denominator is exactly 0, `_find_intersection` returns `None`, and
`check_mission` returns `("clear", [])` with no conflict at all. -/
theorem headOn_claim_false :
    check_mission 50 headOnPrimary [headOnOther] = .ok ("clear", []) := by
  norm_num [check_mission, checkMissionList, checkMissionPair, collectOuter, collectInner,
    segments, checkSegPair, checkTemporalOverlap, findIntersection, denom, headOnPrimary,
    headOnOther, wpH1, wpH2, wpH3, wpH4]

/-- C1, amended.  For the head-on collision scenario the two segments
are collinear, the intersection denominator is 0, no intersection point
is found for the single segment pair, and `check_mission` with safety
buffer 50 returns status "clear" and an empty conflict list. -/
theorem headOn_collinear_clear :
    denom wpH1 wpH2 wpH3 wpH4 = 0 ∧
    findIntersection wpH1 wpH2 wpH3 wpH4 = none ∧
    (check_mission 50 headOnPrimary [headOnOther]).map (fun r => r.2.length) = .ok 0 := by
  refine ⟨by norm_num [denom, wpH1, wpH2, wpH3, wpH4], ?_, ?_⟩
  · norm_num [findIntersection, denom, wpH1, wpH2, wpH3, wpH4]
  · norm_num [check_mission, checkMissionList, checkMissionPair, collectOuter, collectInner,
      segments, checkSegPair, checkTemporalOverlap, findIntersection, denom, headOnPrimary,
      headOnOther, wpH1, wpH2, wpH3, wpH4, Except.map]

/-- C6.  Whenever the intersection denominator is exactly 0 the source
reports no intersection point, and consequently the parallel-paths
scenario (primary (0,0)@10:00 → (200,0)@10:10 against (0,100)@10:00 →
(200,100)@10:10) is reported clear with zero conflicts for any buffer
at most 100 (in fact for every buffer, since the distance test is never
reached). -/
theorem denom_zero_no_conflict (a0 a1 b0 b1 : Waypoint)
    (hd : denom a0 a1 b0 b1 = 0) (buffer : ℚ) (hb : buffer ≤ 100) :
    findIntersection a0 a1 b0 b1 = none ∧
    check_mission buffer parPrimary [parOther] = .ok ("clear", []) := by
  constructor
  · simp [findIntersection, hd]
  · norm_num [check_mission, checkMissionList, checkMissionPair, collectOuter, collectInner,
      segments, checkSegPair, checkTemporalOverlap, findIntersection, denom, parPrimary,
      parOther, wpP1, wpP2, wpP3, wpP4]

/-- Witness for C6: the parallel scenario itself, at buffer 50. -/
theorem denom_zero_no_conflict_witness :
    findIntersection wpP1 wpP2 wpP3 wpP4 = none ∧
    check_mission 50 parPrimary [parOther] = .ok ("clear", []) :=
  denom_zero_no_conflict wpP1 wpP2 wpP3 wpP4
    (by norm_num [denom, wpP1, wpP2, wpP3, wpP4]) 50 (by norm_num)

/-- C2, counterexample.  The claim asserts that `check_mission` never
raises on trajectories satisfying the construction invariants, which
permit waypoints without timestamps.  The two missions below pass
`Mission.__post_init__` unchanged, yet `check_mission` reaches
`wp1_end.timestamp < wp2_start.timestamp` with both sides `None` and
raises a `TypeError`. -/
theorem check_mission_none_timestamp_raises :
    mkMission [wpN1, wpN2] 0 600 "A" = .ok noTsPrimary ∧
    mkMission [wpN3, wpN4] 0 600 "B" = .ok noTsOther ∧
    check_mission 50 noTsPrimary [noTsOther] =
      .error "TypeError: cannot compare None timestamp" := by
  refine ⟨?_, ?_, ?_⟩
  · norm_num [mkMission, wpN1, wpN2, noTsPrimary]
  · norm_num [mkMission, wpN3, wpN4, noTsOther]
  · norm_num [check_mission, checkMissionList, checkMissionPair, collectOuter, collectInner,
      segments, checkSegPair, checkTemporalOverlap, noTsPrimary, noTsOther,
      wpN1, wpN2, wpN3, wpN4]

/-- Helper: each segment of a waypoint list has both endpoints in the
list. -/
theorem mem_of_mem_segments {ws : List Waypoint} {p : Waypoint × Waypoint}
    (hp : p ∈ segments ws) : p.1 ∈ ws ∧ p.2 ∈ ws := by
  induction ws with
  | nil => simp [segments] at hp
  | cons a rest ih =>
    cases rest with
    | nil => simp [segments] at hp
    | cons b rest2 =>
      rw [segments] at hp
      rcases List.mem_cons.mp hp with h | h
      · subst h
        exact ⟨List.mem_cons_self _ _, List.mem_cons_of_mem _ (List.mem_cons_self _ _)⟩
      · have h2 := ih h
        exact ⟨List.mem_cons_of_mem _ h2.1, List.mem_cons_of_mem _ h2.2⟩

/-- Helper: the temporal-overlap test succeeds whenever all four
timestamps are present. -/
theorem checkTemporalOverlap_isOk {a0 a1 b0 b1 : Waypoint}
    (h0 : a0.timestamp.isSome = true) (h1 : a1.timestamp.isSome = true)
    (h2 : b0.timestamp.isSome = true) (h3 : b1.timestamp.isSome = true) :
    ∃ b, checkTemporalOverlap a0 a1 b0 b1 = .ok b := by
  obtain ⟨t0, e0⟩ := Option.isSome_iff_exists.mp h0
  obtain ⟨t1, e1⟩ := Option.isSome_iff_exists.mp h1
  obtain ⟨t2, e2⟩ := Option.isSome_iff_exists.mp h2
  obtain ⟨t3, e3⟩ := Option.isSome_iff_exists.mp h3
  rw [checkTemporalOverlap, e0, e1, e2, e3]
  by_cases h : t1 < t2
  · exact ⟨false, by simp [h]⟩
  · exact ⟨!decide (t3 < t0), by simp [h]⟩

/-- Helper: the conflict-time computation succeeds whenever the primary
segment endpoints both carry timestamps. -/
theorem calcConflictTime_isOk {a0 a1 b0 b1 : Waypoint} (inter : ℚ × ℚ)
    (h0 : a0.timestamp.isSome = true) (h1 : a1.timestamp.isSome = true) :
    ∃ t, calcConflictTime a0 a1 b0 b1 inter = .ok t := by
  obtain ⟨t0, e0⟩ := Option.isSome_iff_exists.mp h0
  obtain ⟨t1, e1⟩ := Option.isSome_iff_exists.mp h1
  rw [calcConflictTime, e0, e1]
  exact ⟨_, rfl⟩

/-- Helper: one segment-pair check succeeds whenever all four endpoints
carry timestamps. -/
theorem checkSegPair_isOk {buffer : ℚ} {d1 d2 : String} {a0 a1 b0 b1 : Waypoint}
    (h0 : a0.timestamp.isSome = true) (h1 : a1.timestamp.isSome = true)
    (h2 : b0.timestamp.isSome = true) (h3 : b1.timestamp.isSome = true) :
    ∃ cs, checkSegPair buffer d1 d2 a0 a1 b0 b1 = .ok cs := by
  obtain ⟨ov, hov⟩ := checkTemporalOverlap_isOk h0 h1 h2 h3
  cases ov with
  | false => exact ⟨[], by simp [checkSegPair, hov]⟩
  | true =>
    cases hfi : findIntersection a0 a1 b0 b1 with
    | none => exact ⟨[], by simp [checkSegPair, hov, hfi]⟩
    | some cp =>
      obtain ⟨t, ht⟩ := @calcConflictTime_isOk a0 a1 b0 b1 cp h0 h1
      by_cases hd : sqrtLtBuffer (calcDistanceSq a0 b0 cp) buffer = true
      · exact ⟨[{ location := cp, time := t, primary_drone := d1, conflicting_drone := d2, distanceSq := calcDistanceSq a0 b0 cp }], by simp [checkSegPair, hov, hfi, ht, hd]⟩
      · exact ⟨[], by simp [checkSegPair, hov, hfi, ht, hd]⟩

/-- Helper: the inner segment loop succeeds whenever every waypoint in
sight carries a timestamp. -/
theorem collectInner_isOk {buffer : ℚ} {d1 d2 : String} {a : Waypoint × Waypoint}
    (ha1 : a.1.timestamp.isSome = true) (ha2 : a.2.timestamp.isSome = true)
    (s2 : List (Waypoint × Waypoint))
    (hs2 : ∀ b ∈ s2, b.1.timestamp.isSome = true ∧ b.2.timestamp.isSome = true) :
    ∃ cs, collectInner buffer d1 d2 a s2 = .ok cs := by
  induction s2 with
  | nil => exact ⟨[], rfl⟩
  | cons b rest ih =>
    obtain ⟨hb1, hb2⟩ := hs2 b (List.mem_cons_self _ _)
    obtain ⟨cs1, hcs1⟩ := @checkSegPair_isOk buffer d1 d2 a.1 a.2 b.1 b.2
      ha1 ha2 hb1 hb2
    obtain ⟨cs2, hcs2⟩ := ih (fun p hp => hs2 p (List.mem_cons_of_mem _ hp))
    exact ⟨cs1 ++ cs2, by rw [collectInner, hcs1, hcs2]⟩

/-- Helper: the outer segment loop succeeds whenever every waypoint in
sight carries a timestamp. -/
theorem collectOuter_isOk {buffer : ℚ} {d1 d2 : String}
    (s2 : List (Waypoint × Waypoint))
    (hs2 : ∀ b ∈ s2, b.1.timestamp.isSome = true ∧ b.2.timestamp.isSome = true)
    (s1 : List (Waypoint × Waypoint))
    (hs1 : ∀ a ∈ s1, a.1.timestamp.isSome = true ∧ a.2.timestamp.isSome = true) :
    ∃ cs, collectOuter buffer d1 d2 s2 s1 = .ok cs := by
  induction s1 with
  | nil => exact ⟨[], rfl⟩
  | cons a rest ih =>
    obtain ⟨ha1, ha2⟩ := hs1 a (List.mem_cons_self _ _)
    obtain ⟨cs1, hcs1⟩ := @collectInner_isOk buffer d1 d2 a
      ha1 ha2 s2 hs2
    obtain ⟨cs2, hcs2⟩ := ih (fun p hp => hs1 p (List.mem_cons_of_mem _ hp))
    exact ⟨cs1 ++ cs2, by rw [collectOuter, hcs1, hcs2]⟩

/-- Helper: a mission pair check succeeds when both missions are fully
timestamped. -/
theorem checkMissionPair_isOk {buffer : ℚ} {m1 m2 : Mission}
    (h1 : allTimestamped m1) (h2 : allTimestamped m2) :
    ∃ cs, checkMissionPair buffer m1 m2 = .ok cs := by
  rw [checkMissionPair]
  exact collectOuter_isOk _
    (fun b hb => ⟨h2 _ (mem_of_mem_segments hb).1, h2 _ (mem_of_mem_segments hb).2⟩) _
    (fun a ha => ⟨h1 _ (mem_of_mem_segments ha).1, h1 _ (mem_of_mem_segments ha).2⟩)

/-- C2, amended.  The detector is total on missions in which every
waypoint carries a timestamp: `check_mission` then always returns a
`(status, conflicts)` value and never raises.  (Without the timestamp
condition the claim is refuted by `check_mission_none_timestamp_raises`:
the construction invariants also admit timestamp-free waypoints, on
which the temporal-overlap comparison raises a `TypeError`.) -/
theorem check_mission_total (buffer : ℚ) (primary : Mission) (others : List Mission)
    (hp : allTimestamped primary) (ho : ∀ m ∈ others, allTimestamped m) :
    ∃ r, check_mission buffer primary others = .ok r := by
  have hlist : ∃ cs, checkMissionList buffer primary others = .ok cs := by
    induction others with
    | nil => exact ⟨[], rfl⟩
    | cons m rest ih =>
      obtain ⟨cs1, hcs1⟩ := @checkMissionPair_isOk buffer primary m
        hp (ho m (List.mem_cons_self _ _))
      obtain ⟨cs2, hcs2⟩ := ih (fun p hp2 => ho p (List.mem_cons_of_mem _ hp2))
      exact ⟨cs1 ++ cs2, by rw [checkMissionList, hcs1, hcs2]⟩
  obtain ⟨cs, hcs⟩ := hlist
  rw [check_mission, hcs]
  by_cases h : cs.isEmpty
  · exact ⟨("clear", []), by simp [h]⟩
  · exact ⟨("conflict detected", cs), by simp [h]⟩

/-- Witness for the amended C2 theorem: the fully timestamped crossing
scenario, where the detector returns a result. -/
theorem check_mission_total_witness :
    ∃ r, check_mission 200 crossPrimary [crossOther] = .ok r :=
  check_mission_total 200 crossPrimary [crossOther]
    (by simp [allTimestamped, crossPrimary, wpC1, wpC2])
    (by simp [allTimestamped, crossOther, wpC3, wpC4])

/-- C3.  For a segment pair with all four timestamps present, the
temporal test computes exactly `not (A1.t < B0.t or B1.t < A0.t)`; when
the intervals are disjoint in that sense the pair is rejected with no
conflicts regardless of geometry, and intervals that touch at exactly
one shared instant count as overlapping. -/
theorem temporal_overlap_spec (buffer : ℚ) (d1 d2 : String)
    (a0 a1 b0 b1 : Waypoint) (ta0 ta1 tb0 tb1 : ℚ)
    (h0 : a0.timestamp = some ta0) (h1 : a1.timestamp = some ta1)
    (h2 : b0.timestamp = some tb0) (h3 : b1.timestamp = some tb1) :
    checkTemporalOverlap a0 a1 b0 b1 = .ok (decide (¬(ta1 < tb0 ∨ tb1 < ta0))) ∧
    ((ta1 < tb0 ∨ tb1 < ta0) → checkSegPair buffer d1 d2 a0 a1 b0 b1 = .ok []) ∧
    (ta0 ≤ ta1 → tb0 ≤ tb1 → (ta1 = tb0 ∨ tb1 = ta0) →
      checkTemporalOverlap a0 a1 b0 b1 = .ok true) := by
  have hov : checkTemporalOverlap a0 a1 b0 b1 = .ok (decide (¬(ta1 < tb0 ∨ tb1 < ta0))) := by
    by_cases hlt : ta1 < tb0
    · simp [checkTemporalOverlap, h0, h1, h2, h3, hlt]
    · have hd : decide (¬(ta1 < tb0 ∨ tb1 < ta0)) = !decide (tb1 < ta0) := by
        by_cases hRb : tb1 < ta0 <;> simp [hlt, hRb]
      simp [checkTemporalOverlap, h0, h1, h2, h3, hlt, hd]
      by_cases hRb : tb1 < ta0
      · simp [hRb, not_le.mpr hRb]
      · simp [hRb, not_lt.mp hRb]
  refine ⟨hov, ?_, ?_⟩
  · intro hdisj
    have hfalse : checkTemporalOverlap a0 a1 b0 b1 = .ok false := by
      rw [hov]; simp [hdisj]
    simp [checkSegPair, hfalse]
  · intro hA hB htouch
    rw [hov]
    have h1 : ¬(ta1 < tb0 ∨ tb1 < ta0) := by
      rcases htouch with he | he
      · push_neg
        constructor
        · rw [he]
        · rw [← he] at hB
          exact le_trans hA hB
      · push_neg
        constructor
        · rw [he] at hB
          exact le_trans hB hA
        · rw [he]
    simp [h1]

/-- Witness for C3: touching intervals (A over seconds 0 to 100, B over
seconds 100 to 200) are treated as overlapping. -/
theorem temporal_overlap_spec_witness :
    checkTemporalOverlap wpT0 wpT1 wpT2 wpT3 = .ok true :=
  (temporal_overlap_spec 50 "A" "B" wpT0 wpT1 wpT2 wpT3 0 100 100 200
    rfl rfl rfl rfl).2.2 (by norm_num) (by norm_num) (Or.inl rfl)

/-- C4.  For a segment pair that passed the temporal and geometric
tests, a conflict is emitted exactly when the computed distance is
strictly below the safety buffer; in squared form (the faithful
encoding of `sqrt distSq < buffer` for a positive buffer), a conflict
appears iff `distSq < buffer ^ 2`, and a distance exactly equal to the
buffer (`distSq = buffer ^ 2`) emits nothing. -/
theorem strict_buffer_test (buffer : ℚ) (hb : 0 < buffer) (d1 d2 : String)
    (a0 a1 b0 b1 : Waypoint) (cp : ℚ × ℚ) (ct : ℚ)
    (hov : checkTemporalOverlap a0 a1 b0 b1 = .ok true)
    (hfi : findIntersection a0 a1 b0 b1 = some cp)
    (hct : calcConflictTime a0 a1 b0 b1 cp = .ok ct) :
    ((∃ c, checkSegPair buffer d1 d2 a0 a1 b0 b1 = .ok [c]) ↔
      calcDistanceSq a0 b0 cp < buffer ^ 2) ∧
    (calcDistanceSq a0 b0 cp = buffer ^ 2 →
      checkSegPair buffer d1 d2 a0 a1 b0 b1 = .ok []) := by
  have hpair : checkSegPair buffer d1 d2 a0 a1 b0 b1 =
      if sqrtLtBuffer (calcDistanceSq a0 b0 cp) buffer then
        .ok [{ location := cp, time := ct, primary_drone := d1, conflicting_drone := d2, distanceSq := calcDistanceSq a0 b0 cp }]
      else .ok [] := by
    simp [checkSegPair, hov, hfi, hct]
  constructor
  · constructor
    · rintro ⟨c, hc⟩
      by_cases hlt : calcDistanceSq a0 b0 cp < buffer ^ 2
      · exact hlt
      · rw [hpair] at hc
        simp [sqrtLtBuffer, hlt] at hc
    · intro hlt
      refine ⟨{ location := cp, time := ct, primary_drone := d1, conflicting_drone := d2, distanceSq := calcDistanceSq a0 b0 cp }, ?_⟩
      rw [hpair]
      simp [sqrtLtBuffer, hb, hlt]
  · intro heq
    rw [hpair]
    simp [sqrtLtBuffer, heq]

/-- Witness for C4: in the crossing scenario the start points are 100
apart; with safety buffer exactly 100 (squared: 10000 = 100 ^ 2) no
conflict is emitted. -/
theorem strict_buffer_test_witness :
    checkSegPair 100 "P" "Q" wpC1 wpC2 wpC3 wpC4 = .ok [] :=
  (strict_buffer_test 100 (by norm_num) "P" "Q" wpC1 wpC2 wpC3 wpC4 (50, 50) 300
    (by norm_num [checkTemporalOverlap, wpC1, wpC2, wpC3, wpC4])
    (by norm_num [findIntersection, denom, wpC1, wpC2, wpC3, wpC4])
    (by norm_num [calcConflictTime, totalDistSq, ratSqrt, wpC1, wpC2, wpC3, wpC4])).2
    (by norm_num [calcDistanceSq, wpC1, wpC3])

/-- C5.  The distance used for the safety test and stored in a Conflict
record is the (squared) Euclidean distance between the start waypoints
of the two segments; `_calculate_distance` ignores its intersection-point
argument entirely. -/
theorem conflict_distance_from_starts (buffer : ℚ) (d1 d2 : String)
    (a0 a1 b0 b1 : Waypoint) (p q : ℚ × ℚ) (cs : List Conflict) (c : Conflict)
    (h : checkSegPair buffer d1 d2 a0 a1 b0 b1 = .ok cs) (hc : c ∈ cs) :
    c.distanceSq = (a0.x - b0.x) ^ 2 + (a0.y - b0.y) ^ 2 ∧
    calcDistanceSq a0 b0 p = calcDistanceSq a0 b0 q := by
  refine ⟨?_, rfl⟩
  cases hov : checkTemporalOverlap a0 a1 b0 b1 with
  | error e => simp [checkSegPair, hov] at h
  | ok ov =>
    cases ov with
    | false =>
      simp [checkSegPair, hov] at h
      subst h
      simp at hc
    | true =>
      cases hfi : findIntersection a0 a1 b0 b1 with
      | none =>
        simp [checkSegPair, hov, hfi] at h
        subst h
        simp at hc
      | some cp =>
        cases hct : calcConflictTime a0 a1 b0 b1 cp with
        | error e => simp [checkSegPair, hov, hfi, hct] at h
        | ok ct =>
          by_cases hd : sqrtLtBuffer (calcDistanceSq a0 b0 cp) buffer = true
          · simp [checkSegPair, hov, hfi, hct, hd] at h
            subst h
            rw [List.mem_singleton] at hc
            subst hc
            rfl
          · simp [checkSegPair, hov, hfi, hct, hd] at h
            subst h
            simp at hc

/-- Witness for C5: the single conflict of the crossing scenario stores
the squared start-to-start distance 10000, and the distance helper is
insensitive to the point argument. -/
theorem conflict_distance_from_starts_witness :
    (Conflict.mk (50, 50) 300 "P" "Q" 10000).distanceSq =
      (wpC1.x - wpC3.x) ^ 2 + (wpC1.y - wpC3.y) ^ 2 ∧
    calcDistanceSq wpC1 wpC3 (0, 0) = calcDistanceSq wpC1 wpC3 (50, 50) :=
  conflict_distance_from_starts 200 "P" "Q" wpC1 wpC2 wpC3 wpC4 (0, 0) (50, 50)
    [Conflict.mk (50, 50) 300 "P" "Q" 10000] (Conflict.mk (50, 50) 300 "P" "Q" 10000)
    (by norm_num [checkSegPair, checkTemporalOverlap, findIntersection, denom,
      calcConflictTime, totalDistSq, ratSqrt, calcDistanceSq, sqrtLtBuffer,
      wpC1, wpC2, wpC3, wpC4])
    (List.mem_singleton.mpr rfl)

/-- Helper: an empty other-segment list yields no conflicts from the
outer loop. -/
theorem collectOuter_nil_right (buffer : ℚ) (d1 d2 : String)
    (s1 : List (Waypoint × Waypoint)) :
    collectOuter buffer d1 d2 [] s1 = .ok [] := by
  induction s1 with
  | nil => rfl
  | cons a rest ih => simp [collectOuter, collectInner, ih]

/-- C9.  A trajectory with exactly one waypoint yields no segments, so
comparing it against any other mission (on either side) contributes
zero conflicts, and `check_mission` with it as primary reports clear. -/
theorem single_waypoint_clear (buffer : ℚ) (m1 m2 : Mission)
    (h : m1.waypoints.length = 1) :
    checkMissionPair buffer m1 m2 = .ok [] ∧
    checkMissionPair buffer m2 m1 = .ok [] ∧
    check_mission buffer m1 [m2] = .ok ("clear", []) := by
  obtain ⟨w, hw⟩ : ∃ w, m1.waypoints = [w] := by
    cases hws : m1.waypoints with
    | nil => rw [hws] at h; simp at h
    | cons a rest =>
      cases rest with
      | nil => exact ⟨a, rfl⟩
      | cons b r2 =>
        rw [hws] at h
        simp only [List.length_cons] at h
        omega
  have hseg : segments m1.waypoints = [] := by rw [hw]; rfl
  have h1 : checkMissionPair buffer m1 m2 = .ok [] := by
    rw [checkMissionPair, hseg]
    rfl
  have h2 : checkMissionPair buffer m2 m1 = .ok [] := by
    rw [checkMissionPair, hseg, collectOuter_nil_right]
  refine ⟨h1, h2, ?_⟩
  simp [check_mission, checkMissionList, h1]

/-- Witness for C9: the one-waypoint mission against the crossing
mission. -/
theorem single_waypoint_clear_witness :
    checkMissionPair 50 singleWpMission crossOther = .ok [] ∧
    checkMissionPair 50 crossOther singleWpMission = .ok [] ∧
    check_mission 50 singleWpMission [crossOther] = .ok ("clear", []) :=
  single_waypoint_clear 50 singleWpMission crossOther rfl

/-- C10.  A zero-length segment (identical start and end coordinates)
forces the intersection denominator to 0, so no intersection point and
no conflict can arise from such a pair; conversely, whenever an
intersection point is produced (the only path on which a Conflict can
be emitted), the primary segment has positive squared length, so the
zero-length branch of the conflict-time fraction (`else 0`) is never
taken on a conflict-producing path. -/
theorem zero_length_segment_spec (a0 a1 b0 b1 : Waypoint) (buffer : ℚ)
    (d1 d2 : String) (cp : ℚ × ℚ) (cs : List Conflict) :
    (((a0.x = a1.x ∧ a0.y = a1.y) ∨ (b0.x = b1.x ∧ b0.y = b1.y)) →
      denom a0 a1 b0 b1 = 0 ∧ findIntersection a0 a1 b0 b1 = none ∧
      (checkSegPair buffer d1 d2 a0 a1 b0 b1 = .ok cs → cs = [])) ∧
    (findIntersection a0 a1 b0 b1 = some cp → 0 < totalDistSq a0 a1) := by
  constructor
  · intro hdeg
    have hd : denom a0 a1 b0 b1 = 0 := by
      rcases hdeg with ⟨hx, hy⟩ | ⟨hx, hy⟩
      · simp [denom, hx, hy]
      · simp [denom, hx, hy]
    have hfi : findIntersection a0 a1 b0 b1 = none := by
      simp [findIntersection, hd]
    refine ⟨hd, hfi, ?_⟩
    intro hcs
    cases hov : checkTemporalOverlap a0 a1 b0 b1 with
    | error e => simp [checkSegPair, hov] at hcs
    | ok ov =>
      cases ov with
      | false =>
        simp [checkSegPair, hov] at hcs
        exact hcs
      | true =>
        simp [checkSegPair, hov, hfi] at hcs
        exact hcs
  · intro hfi
    have hd : denom a0 a1 b0 b1 ≠ 0 := by
      intro h0
      simp [findIntersection, h0] at hfi
    by_contra hle
    push_neg at hle
    rw [totalDistSq] at hle
    have h1 : (a1.x - a0.x) ^ 2 = 0 :=
      le_antisymm (by nlinarith [sq_nonneg (a1.y - a0.y)]) (sq_nonneg _)
    have h2 : (a1.y - a0.y) ^ 2 = 0 :=
      le_antisymm (by nlinarith [sq_nonneg (a1.x - a0.x)]) (sq_nonneg _)
    have hx : a1.x = a0.x := sub_eq_zero.mp (sq_eq_zero_iff.mp h1)
    have hy : a1.y = a0.y := sub_eq_zero.mp (sq_eq_zero_iff.mp h2)
    apply hd
    simp [denom, hx, hy]

/-- Witness for C10: the degenerate segment at (5,5) against a real
segment produces denominator 0 and no intersection, while the crossing
scenario (which has an intersection) implies a positive primary
segment length. -/
theorem zero_length_segment_spec_witness :
    (denom wpD0 wpD1 wpC3 wpC4 = 0 ∧
      findIntersection wpD0 wpD1 wpC3 wpC4 = none ∧
      (checkSegPair 50 "P" "Q" wpD0 wpD1 wpC3 wpC4 = .ok [] → ([] : List Conflict) = [])) ∧
    0 < totalDistSq wpC1 wpC2 :=
  ⟨(zero_length_segment_spec wpD0 wpD1 wpC3 wpC4 50 "P" "Q" (0, 0) []).1
      (Or.inl ⟨rfl, rfl⟩),
   (zero_length_segment_spec wpC1 wpC2 wpC3 wpC4 50 "P" "Q" (50, 50) []).2
      (by norm_num [findIntersection, denom, wpC1, wpC2, wpC3, wpC4])⟩

/-- C8.  Waypoint construction fails exactly when `x < 0`, `y < 0`, or
`z` is present and negative; in particular (0, 0) with a nonnegative or
absent altitude constructs successfully. -/
theorem mkWaypoint_spec (x y : ℚ) (z ts : Option ℚ) :
    ((∃ w, mkWaypoint x y z ts = .ok w) ↔
      ¬(x < 0 ∨ y < 0 ∨ ∃ v, z = some v ∧ v < 0)) ∧
    ((∀ v, z = some v → 0 ≤ v) →
      mkWaypoint 0 0 z ts = .ok { x := 0, y := 0, z := z, timestamp := ts }) := by
  cases z with
  | none =>
    refine ⟨⟨?_, ?_⟩, ?_⟩
    · rintro ⟨w, hw⟩ hbad
      rcases hbad with h | h | ⟨v, hv, hvneg⟩
      · simp [mkWaypoint, h] at hw
      · simp [mkWaypoint, h] at hw
      · cases hv
    · intro hok
      have hx : ¬ x < 0 := fun h => hok (Or.inl h)
      have hy : ¬ y < 0 := fun h => hok (Or.inr (Or.inl h))
      refine ⟨{ x := x, y := y, z := none, timestamp := ts }, ?_⟩
      simp [mkWaypoint, hx, hy]
    · intro _
      norm_num [mkWaypoint]
  | some v =>
    refine ⟨⟨?_, ?_⟩, ?_⟩
    · rintro ⟨w, hw⟩ hbad
      rcases hbad with h | h | ⟨v2, hv2, hvneg⟩
      · simp [mkWaypoint, h] at hw
      · simp [mkWaypoint, h] at hw
      · rw [Option.some_inj] at hv2
        subst hv2
        by_cases hxy : x < 0 ∨ y < 0
        · simp [mkWaypoint, hxy] at hw
        · simp [mkWaypoint, hxy, hvneg] at hw
    · intro hok
      have hx : ¬ x < 0 := fun h => hok (Or.inl h)
      have hy : ¬ y < 0 := fun h => hok (Or.inr (Or.inl h))
      have hv : ¬ v < 0 := fun h => hok (Or.inr (Or.inr ⟨v, rfl, h⟩))
      refine ⟨{ x := x, y := y, z := some v, timestamp := ts }, ?_⟩
      simp [mkWaypoint, hx, hy, hv]
    · intro hz
      have hv : 0 ≤ v := hz v rfl
      norm_num [mkWaypoint, not_lt.mpr hv]

/-- Witness for C8: the origin waypoint without altitude or timestamp
constructs successfully. -/
theorem mkWaypoint_spec_witness :
    mkWaypoint 0 0 none none = .ok { x := 0, y := 0, z := none, timestamp := none } :=
  (mkWaypoint_spec 0 0 none none).2 (fun v hv => by cases hv)

/-- Helper: the per-waypoint window check of `mkMission` holds exactly
when every present timestamp lies in the window. -/
theorem wpWindowOk_iff (st et : ℚ) (w : Waypoint) :
    ((match w.timestamp with
      | some t => decide (st ≤ t) && decide (t ≤ et)
      | none => true) = true) ↔
      (∀ t, w.timestamp = some t → st ≤ t ∧ t ≤ et) := by
  cases hw : w.timestamp with
  | none => simp
  | some t => simp

/-- C7.  Mission construction succeeds exactly when the waypoint list is
nonempty, the window is nondegenerate (`st < et`), and every timestamped
waypoint lies inside the window; on success the stored waypoints are the
input sorted ascending by timestamp (a permutation of the input) when
every waypoint carries a timestamp, and the input order unchanged
otherwise. -/
theorem mkMission_spec (ws : List Waypoint) (st et : ℚ) (id : String) :
    ((∃ m, mkMission ws st et id = .ok m) ↔
      (ws ≠ [] ∧ st < et ∧
        ∀ w ∈ ws, ∀ t, w.timestamp = some t → st ≤ t ∧ t ≤ et)) ∧
    (∀ m, mkMission ws st et id = .ok m →
      ((ws.all (fun w => w.timestamp.isSome) = true →
         List.Sorted wpLe m.waypoints ∧ m.waypoints.Perm ws) ∧
       (ws.all (fun w => w.timestamp.isSome) = false → m.waypoints = ws))) := by
  by_cases hemp : ws.isEmpty
  · have hws : ws = [] := List.isEmpty_iff.mp hemp
    constructor
    · constructor
      · rintro ⟨m, hm⟩
        rw [mkMission, if_pos hemp] at hm
        cases hm
      · rintro ⟨hne, -, -⟩
        exact absurd hws hne
    · intro m hm
      rw [mkMission, if_pos hemp] at hm
      cases hm
  · by_cases hts : et ≤ st
    · constructor
      · constructor
        · rintro ⟨m, hm⟩
          rw [mkMission, if_neg hemp, if_pos hts] at hm
          cases hm
        · rintro ⟨-, hlt, -⟩
          exact absurd hts (not_le.mpr hlt)
      · intro m hm
        rw [mkMission, if_neg hemp, if_pos hts] at hm
        cases hm
    · have hne : ws ≠ [] := fun h => hemp (by simp [h])
      have hlt : st < et := not_le.mp hts
      have hmk : mkMission ws st et id =
          (if (if ws.all (fun w => w.timestamp.isSome) then List.insertionSort wpLe ws else ws).all
                (fun w => match w.timestamp with
                  | some t => decide (st ≤ t) && decide (t ≤ et)
                  | none => true) = true
           then .ok { waypoints := (if ws.all (fun w => w.timestamp.isSome) then List.insertionSort wpLe ws else ws), start_time := st, end_time := et, drone_id := id }
           else .error "Waypoint timestamp must be within mission time window") := by
        rw [mkMission, if_neg hemp, if_neg hts]
      have hperm : (if ws.all (fun w => w.timestamp.isSome) then List.insertionSort wpLe ws else ws).Perm ws := by
        by_cases hall : ws.all (fun w => w.timestamp.isSome)
        · simp only [if_pos hall]
          exact List.perm_insertionSort wpLe ws
        · simp only [if_neg hall]
          exact List.Perm.refl ws
      have hcheck : ((if ws.all (fun w => w.timestamp.isSome) then List.insertionSort wpLe ws else ws).all
            (fun w => match w.timestamp with
              | some t => decide (st ≤ t) && decide (t ≤ et)
              | none => true) = true) ↔
          (∀ w ∈ ws, ∀ t, w.timestamp = some t → st ≤ t ∧ t ≤ et) := by
        rw [List.all_eq_true]
        constructor
        · intro hall w hw
          exact (wpWindowOk_iff st et w).mp (hall w (hperm.mem_iff.mpr hw))
        · intro hwin w hw
          exact (wpWindowOk_iff st et w).mpr (hwin w (hperm.mem_iff.mp hw))
      constructor
      · constructor
        · rintro ⟨m, hm⟩
          refine ⟨hne, hlt, ?_⟩
          rw [hmk] at hm
          by_cases hall2 : (if ws.all (fun w => w.timestamp.isSome) then List.insertionSort wpLe ws else ws).all
              (fun w => match w.timestamp with
                | some t => decide (st ≤ t) && decide (t ≤ et)
                | none => true) = true
          · exact hcheck.mp hall2
          · rw [if_neg hall2] at hm
            cases hm
        · rintro ⟨-, -, hwin⟩
          refine ⟨{ waypoints := (if ws.all (fun w => w.timestamp.isSome) then List.insertionSort wpLe ws else ws), start_time := st, end_time := et, drone_id := id }, ?_⟩
          rw [hmk, if_pos (hcheck.mpr hwin)]
      · intro m hm
        rw [hmk] at hm
        by_cases hall2 : (if ws.all (fun w => w.timestamp.isSome) then List.insertionSort wpLe ws else ws).all
            (fun w => match w.timestamp with
              | some t => decide (st ≤ t) && decide (t ≤ et)
              | none => true) = true
        · rw [if_pos hall2] at hm
          have hmw : m.waypoints =
              (if ws.all (fun w => w.timestamp.isSome) then List.insertionSort wpLe ws else ws) := by
            cases hm
            rfl
          constructor
          · intro hall
            rw [hmw, if_pos hall]
            exact ⟨List.sorted_insertionSort wpLe ws, List.perm_insertionSort wpLe ws⟩
          · intro hallf
            rw [hmw, if_neg (by simp [hallf])]
        · rw [if_neg hall2] at hm
          cases hm

/-- Witness for C7: constructing from the unsorted fully timestamped
list [wpS1 (t=200), wpS2 (t=100)] succeeds and stores the waypoints in
ascending timestamp order, a permutation of the input. -/
theorem mkMission_spec_witness :
    List.Sorted wpLe (Mission.mk [wpS2, wpS1] 0 600 "S").waypoints ∧
    List.Perm (Mission.mk [wpS2, wpS1] 0 600 "S").waypoints [wpS1, wpS2] :=
  ((mkMission_spec [wpS1, wpS2] 0 600 "S").2 (Mission.mk [wpS2, wpS1] 0 600 "S")
    (by norm_num [mkMission, List.insertionSort, List.orderedInsert, wpLe, tsKey, wpS1, wpS2])).1
    (by norm_num [wpS1, wpS2])
